import Mathlib

/-!
Verification development for the cursor-trail overlay application
(single React component, `src/unnamed/part_000`).

The particle lifecycle engine, the recording-session state machine, the
configuration/preset mutations, the settings persistence layer and the
published control surface are shallowly embedded below, translated from
the source.  JavaScript numbers on the arithmetic paths (point life,
fade decay, star geometry) are modelled as rationals; object identity
(for the globally installed control-surface object) as a numeric id;
asynchronous completions of the screen-capture acquisition and of the
encoder finalization as explicit events consumed by a step function.
-/

namespace CursorTrail

/-! ### Particle pool (source lines 4, 268-285, 292-306) -/

/-- Constant `MAX_POINTS = 48` (line 4). -/
def MAX_POINTS : Nat := 48

/-- A trail point as pushed by `handleMouseMove` (lines 271-276):
position, remaining life, and a fixed per-point seed. -/
structure TrailPoint where
  x : ℚ
  y : ℚ
  life : ℚ
  seed : ℚ
  deriving DecidableEq, Repr

/-- The point literal pushed on a qualifying mouse move: `life: 1`,
`seed` chosen at creation (lines 271-276). -/
def mkPoint (x y seed : ℚ) : TrailPoint :=
  { x := x, y := y, life := 1, seed := seed }

/-- Body of `handleMouseMove` once past the `isActive` guard
(lines 271-280): push the new point, then if the length exceeds
`MAX_POINTS`, `shift()` removes the oldest (first) point. -/
def addPoint (ps : List TrailPoint) (x y seed : ℚ) : List TrailPoint :=
  let pushed := ps ++ [mkPoint x y seed]
  if pushed.length > MAX_POINTS then pushed.tail else pushed

/-- Handler `handleMouseMove` (lines 269-281): a move is ignored while the
trail is inactive (`if (!isActive) return`). -/
def handleMouseMove (isActive : Bool) (ps : List TrailPoint) (x y seed : ℚ) :
    List TrailPoint :=
  if isActive then addPoint ps x y seed else ps

/-- One pass of the `render` loop over the pool (lines 294-304): each
point loses `fadeSpeed / 1000` of life; a point whose next life is
`≤ 0` is skipped (`continue`), every survivor is kept, updated, in
iteration order. -/
def advance (fadeSpeed : ℚ) : List TrailPoint → List TrailPoint
  | [] => []
  | p :: rest =>
      let nextLife := p.life - fadeSpeed / 1000
      if nextLife ≤ 0 then advance fadeSpeed rest
      else { p with life := nextLife } :: advance fadeSpeed rest

/-- Events that mutate the pool: a mouse move (with the current
`isActive` flag and the data of the new point) or one animation frame. -/
inductive PoolEvent where
  | move (isActive : Bool) (x y seed : ℚ)
  | frame (fadeSpeed : ℚ)
  deriving DecidableEq, Repr

/-- Apply one pool event. -/
def poolStep (ps : List TrailPoint) : PoolEvent → List TrailPoint
  | .move a x y s => handleMouseMove a ps x y s
  | .frame f => advance f ps

/-- Run the pool from its initial empty state (`useRef([])`, line 141)
through a sequence of events. -/
def runPool (evs : List PoolEvent) : List TrailPoint :=
  evs.foldl poolStep []

/-! ### Recording controller (source lines 142-156, 193-247)

`startRecording` is `async`: its synchronous prefix runs up to the
`await getDisplayMedia(...)`; the continuation runs when the user
grants or denies capture.  `recorder.stop()` completes later through
the `onstop` callback.  These suspensions are modelled as explicit
events: the synchronous prefix increments a count of outstanding
acquisitions, and separate grant / deny / finalize events consume the
pending completions. -/

/-- The `recordingState` values that occur in the source:
`idle`, `recording` (set on line 231) and `processing` (line 244). -/
inductive RecState where
  | idle
  | recording
  | processing
  deriving DecidableEq, Repr

/-- The observable controller state: React state plus the refs used by
`startRecording` / `stopRecording`, and the counts of outstanding
asynchronous completions. `url`, `recorder` and `stream` abstract
object handles to presence (with `url` keeping an opaque id). -/
structure RecCtrl where
  state : RecState
  url : Option Nat
  error : String
  recorder : Bool
  stream : Bool
  chunks : List Nat
  pendingStarts : Nat
  pendingStops : Nat
  deriving DecidableEq, Repr

/-- Initial controller state (lines 142-156): everything empty,
`recordingState` = `idle`, `recordingError` empty. -/
def rcInit : RecCtrl :=
  { state := .idle, url := none, error := "", recorder := false,
    stream := false, chunks := [], pendingStarts := 0, pendingStops := 0 }

/-- Message set on line 196 when `getDisplayMedia` is unavailable. -/
def capUnavailableMsg : String :=
  "Screen capture is not supported in this browser yet."

/-- Fallback message of line 233 (`error?.message || ...`). -/
def startFailedMsg : String := "Unable to start screen recording."

/-- Events driving the controller. -/
inductive RecEvent where
  /-- A call to `startRecording` (its synchronous prefix, lines
  193-207); `cap` is whether `navigator.mediaDevices.getDisplayMedia`
  exists. -/
  | startCall (cap : Bool)
  /-- The `await getDisplayMedia` resolves and the rest of the `try`
  block runs (lines 209-231). -/
  | startGrant
  /-- The `try` block throws (rejection of the prompt, or encoder
  construction failure) and the `catch` runs (lines 232-239); `msg` is
  `error.message`. -/
  | startDeny (msg : String)
  /-- A call to `stopRecording` (lines 242-247). -/
  | stopCall
  /-- The `recorder.onstop` callback fires (lines 218-226). -/
  | finalize
  /-- The `recorder.ondataavailable` callback fires with a buffer of
  `size` bytes (lines 212-216). -/
  | data (size : Nat)
  deriving DecidableEq, Repr

/-- One controller transition. -/
def recStep (m : RecCtrl) : RecEvent → RecCtrl
  | .startCall cap =>
      if m.state = .recording then m
      else if !cap then { m with error := capUnavailableMsg }
      else { m with error := "", url := none,
                    pendingStarts := m.pendingStarts + 1 }
  | .startGrant =>
      if m.pendingStarts = 0 then m
      else { m with pendingStarts := m.pendingStarts - 1, chunks := [],
                    recorder := true, stream := true, state := .recording }
  | .startDeny msg =>
      if m.pendingStarts = 0 then m
      else { m with pendingStarts := m.pendingStarts - 1,
                    error := if msg = "" then startFailedMsg else msg,
                    stream := false, state := .idle }
  | .stopCall =>
      if m.state = .recording ∧ m.recorder then
        { m with state := .processing, recorder := false,
                 pendingStops := m.pendingStops + 1 }
      else m
  | .finalize =>
      if m.pendingStops = 0 then m
      else { m with pendingStops := m.pendingStops - 1, url := some 0,
                    chunks := [], stream := false, state := .idle }
  | .data size =>
      if (m.recorder ∨ m.pendingStops > 0) ∧ size > 0 then
        { m with chunks := m.chunks ++ [size] }
      else m

/-- Run the controller from its initial state. -/
def runRec (evs : List RecEvent) : RecCtrl :=
  evs.foldl recStep rcInit

/-- A controller state is reachable when some event sequence produces
it from the initial state. -/
def RecReachable (m : RecCtrl) : Prop :=
  ∃ evs : List RecEvent, runRec evs = m

/-! ### Configuration, presets and their mutators
(source lines 24-46, 146-151, 184-191, 328-369, 444-527) -/

/-- The configuration carried by a preset combo (`config:` fields of
`PRESET_COMBOS`, lines 24-46). -/
structure PresetConfig where
  style : String
  color : String
  size : Int
  fade : Int
  deriving DecidableEq, Repr

/-- A catalog entry of `PRESET_COMBOS` (presentation-only `name` /
`description` fields omitted). -/
structure Preset where
  id : String
  shortcut : String
  config : PresetConfig
  deriving DecidableEq, Repr

/-- Catalog `PRESET_COMBOS` (lines 24-46). -/
def PRESET_COMBOS : List Preset :=
  [ { id := "tutorial-pop", shortcut := "1",
      config := { style := "sparkle", color := "#F59E0B", size := 28, fade := 70 } },
    { id := "signature-cyan", shortcut := "2",
      config := { style := "glow", color := "#00C4CC", size := 32, fade := 55 } },
    { id := "brush-studio", shortcut := "3",
      config := { style := "brush", color := "#8B5CF6", size := 36, fade := 85 } } ]

/-- The persisted application configuration: the six `useState` values
of lines 146-151. -/
structure Settings where
  isActive : Bool
  trailStyle : String
  trailColor : String
  trailSize : Int
  fadeSpeed : Int
  activePresetId : Option String
  deriving DecidableEq, Repr

/-- The `useState` initial values (lines 146-151). -/
def defaultSettings : Settings :=
  { isActive := true, trailStyle := "gradient", trailColor := "#8B5CF6",
    trailSize := 22, fadeSpeed := 55, activePresetId := none }

/-- Function `applyPreset` (lines 184-191): overwrite style, color, size and
fade from the preset config and set the active preset id. -/
def applyPreset (preset : Preset) (s : Settings) : Settings :=
  { s with trailStyle := preset.config.style,
           trailColor := preset.config.color,
           trailSize := preset.config.size,
           fadeSpeed := preset.config.fade,
           activePresetId := some preset.id }

/-- The `t` branch of the keydown handler (lines 337-341): flip
`isActive`, touch nothing else. -/
def pressT (s : Settings) : Settings :=
  { s with isActive := !s.isActive }

/-- The `[` branch (lines 350-355): shrink the size with floor 12 and
clear the active preset id. -/
def pressLBracket (s : Settings) : Settings :=
  { s with trailSize := max 12 (s.trailSize - 2), activePresetId := none }

/-- The `]` branch (lines 357-362): grow the size with ceiling 60 and
clear the active preset id. -/
def pressRBracket (s : Settings) : Settings :=
  { s with trailSize := min 60 (s.trailSize + 2), activePresetId := none }

/-- The digit branch (lines 364-368): apply the preset whose
`shortcut` matches the pressed key, if any. -/
def pressDigit (key : String) (s : Settings) : Settings :=
  match PRESET_COMBOS.find? (fun combo => combo.shortcut = key) with
  | some preset => applyPreset preset s
  | none => s

/-- The style-button click handler (lines 444-447): set the style and
clear the active preset id. -/
def clickStyle (id : String) (s : Settings) : Settings :=
  { s with trailStyle := id, activePresetId := none }

/-- The color-swatch click handler (lines 470-473): set the color and
clear the active preset id. -/
def clickColor (value : String) (s : Settings) : Settings :=
  { s with trailColor := value, activePresetId := none }

/-- The size-slider change handler (lines 508-511): set the size and
clear the active preset id. -/
def setSizeSlider (n : Int) (s : Settings) : Settings :=
  { s with trailSize := n, activePresetId := none }

/-- The fade-slider change handler (lines 523-526): set the fade speed
and clear the active preset id. -/
def setFadeSlider (n : Int) (s : Settings) : Settings :=
  { s with fadeSpeed := n, activePresetId := none }

/-! ### Settings persistence (source lines 158-182)

The load effect reads one JSON payload and applies each field only if
its `typeof` matches; the save effect serializes the six values. -/

/-- A JSON value as far as the `typeof` checks of the load effect can
distinguish one. -/
inductive JVal where
  | jbool (b : Bool)
  | jnum (n : Int)
  | jstr (s : String)
  | jnull
  deriving DecidableEq, Repr

/-- A parsed stored payload: each named field either absent or some
JSON value. -/
structure StoredSettings where
  isActive : Option JVal
  trailStyle : Option JVal
  trailColor : Option JVal
  trailSize : Option JVal
  fadeSpeed : Option JVal
  activePresetId : Option JVal
  deriving DecidableEq, Repr

/-- The load effect (lines 162-170): starting from the `useState`
defaults, each setter fires only when the stored field has the matching
`typeof` (`boolean`, `string`, `number`, and `string` for
`activePresetId` — a stored `null` is not a string, so the default
`null` is kept). -/
def loadSettings (p : StoredSettings) : Settings :=
  { isActive := match p.isActive with
      | some (.jbool b) => b
      | _ => defaultSettings.isActive,
    trailStyle := match p.trailStyle with
      | some (.jstr v) => v
      | _ => defaultSettings.trailStyle,
    trailColor := match p.trailColor with
      | some (.jstr v) => v
      | _ => defaultSettings.trailColor,
    trailSize := match p.trailSize with
      | some (.jnum v) => v
      | _ => defaultSettings.trailSize,
    fadeSpeed := match p.fadeSpeed with
      | some (.jnum v) => v
      | _ => defaultSettings.fadeSpeed,
    activePresetId := match p.activePresetId with
      | some (.jstr v) => some v
      | _ => defaultSettings.activePresetId }

/-- The payload written by the save effect (lines 180-181): every field serialized
with its JSON type; a `null` active preset id is stored as JSON
`null`. -/
def saveSettings (s : Settings) : StoredSettings :=
  { isActive := some (.jbool s.isActive),
    trailStyle := some (.jstr s.trailStyle),
    trailColor := some (.jstr s.trailColor),
    trailSize := some (.jnum s.trailSize),
    fadeSpeed := some (.jnum s.fadeSpeed),
    activePresetId := match s.activePresetId with
      | some id => some (.jstr id)
      | none => some .jnull }

/-! ### Control surface (source lines 375-394)

The effect installs an object literal on `window.cursorTrailControls`
and its cleanup deletes the global only when it still `===` the object
this effect installed.  Object identity is modelled by a numeric id. -/

/-- The key names of the published object literal, in source order
(lines 378-386). -/
def controlSurfaceKeys : List String :=
  ["toggle", "applyPreset", "startRecording", "stopRecording"]

/-- One installed control-surface object, identified by reference. -/
structure ControlSurface where
  objId : Nat
  deriving DecidableEq, Repr

/-- Assignment `window.cursorTrailControls = controls` (line 388): installing
replaces whatever was there. -/
def installControls (_slot : Option ControlSurface) (c : ControlSurface) :
    Option ControlSurface :=
  some c

/-- The effect cleanup (lines 389-393): `delete` the global only when
it is still the very object this instance installed. -/
def cleanupControls (slot : Option ControlSurface) (c : ControlSurface) :
    Option ControlSurface :=
  match slot with
  | some current => if current = c then none else some current
  | none => none

/-! ### Star style geometry (source lines 58-61, 100-118)

`drawPoint` with the star style emits one path: `moveTo` on the
first outer vertex, alternating `lineTo`s, then `closePath` and a
single `fill`.  Every vertex lies on a ray from the point center, so
it is represented by its distance from the center and its angle as a
rational multiple of π (the source computes
`(Math.PI * 2 * i) / spikes - Math.PI / 2` and
`outerAngle + Math.PI / spikes`; here the factor π is left symbolic
and only its coefficient is kept). -/

/-- A polygon vertex in center-relative polar form: the angle is
`angleCoeff * π`. -/
structure StarVertex where
  angleCoeff : ℚ
  dist : ℚ
  deriving DecidableEq, Repr

/-- A completed path: its vertices in emission order and whether
`closePath` was called. -/
structure StarPath where
  vertices : List StarVertex
  closed : Bool
  deriving DecidableEq, Repr

/-- The star branch of `drawPoint` (lines 100-118) together with
the shared prelude `alpha = Math.max(point.life, 0)`,
`radius = size * alpha` (lines 60-61): for each of the 5 spikes, one
outer vertex at `radius` and one inner vertex at `radius * 0.45`,
then `closePath`. -/
def starPath (life size : ℚ) : StarPath :=
  let alpha := max life 0
  let radius := size * alpha
  { vertices :=
      (List.range 5).flatMap fun i =>
        let outerAngle : ℚ := 2 * (i : ℚ) / 5 - 1 / 2
        let innerAngle : ℚ := outerAngle + 1 / 5
        [ { angleCoeff := outerAngle, dist := radius },
          { angleCoeff := innerAngle, dist := radius * (45 / 100) } ],
    closed := true }

/-! ### Helper lemmas -/

/-- Lemma: `advance` never grows the pool. -/
lemma advance_length_le (f : ℚ) (ps : List TrailPoint) :
    (advance f ps).length ≤ ps.length := by
  induction ps with
  | nil => simp [advance]
  | cons p rest ih =>
      simp only [advance]
      split
      · exact ih.trans (Nat.le_succ _)
      · simpa using Nat.succ_le_succ ih

/-- Lemma: `addPoint` keeps the pool within `MAX_POINTS`. -/
lemma addPoint_length_le (ps : List TrailPoint) (x y s : ℚ)
    (h : ps.length ≤ MAX_POINTS) :
    (addPoint ps x y s).length ≤ MAX_POINTS := by
  simp only [addPoint]
  by_cases hc : (ps ++ [mkPoint x y s]).length > MAX_POINTS
  · rw [if_pos hc]
    simp only [List.length_tail, List.length_append, List.length_singleton]
    omega
  · rw [if_neg hc]
    omega

/-- Every pool event preserves the capacity bound. -/
lemma poolStep_length_le (ps : List TrailPoint) (ev : PoolEvent)
    (h : ps.length ≤ MAX_POINTS) :
    (poolStep ps ev).length ≤ MAX_POINTS := by
  cases ev with
  | move a x y s =>
      cases a
      · simpa [poolStep, handleMouseMove] using h
      · simpa [poolStep, handleMouseMove] using addPoint_length_le ps x y s h
  | frame f => exact (advance_length_le f ps).trans h

/-- Folding pool events preserves the capacity bound. -/
lemma foldl_poolStep_length_le (evs : List PoolEvent) :
    ∀ ps : List TrailPoint, ps.length ≤ MAX_POINTS →
      (evs.foldl poolStep ps).length ≤ MAX_POINTS := by
  induction evs with
  | nil => intro ps h; simpa using h
  | cons ev rest ih =>
      intro ps h
      exact ih _ (poolStep_length_le ps ev h)

/-- A step-closed predicate holds on every run of the recording
controller. -/
lemma runRec_inv (P : RecCtrl → Prop) (h0 : P rcInit)
    (hstep : ∀ m ev, P m → P (recStep m ev)) :
    ∀ evs : List RecEvent, P (runRec evs) := by
  suffices h : ∀ (l : List RecEvent) (m : RecCtrl), P m → P (l.foldl recStep m) by
    intro evs
    exact h evs rcInit h0
  intro l
  induction l with
  | nil => intro m hm; simpa using hm
  | cons e rest ih => intro m hm; exact ih _ (hstep m e hm)

/-- Every controller step preserves the stream/state correspondence. -/
lemma recStep_stream_inv (m : RecCtrl) (ev : RecEvent)
    (h : m.stream = true ↔ m.state = .recording ∨ m.state = .processing) :
    (recStep m ev).stream = true ↔
      (recStep m ev).state = .recording ∨ (recStep m ev).state = .processing := by
  cases ev <;> simp only [recStep] <;>
    repeat' split <;> simp_all

/-! ### Claim theorems -/

/-- C3: for every sequence of pointer-move additions and advance
steps, the particle pool length stays between 0 and `MAX_POINTS`
(48) inclusive (the lower bound holds because lengths are natural
numbers), and an `add` on a pool already holding 48 points drops the
oldest point and appends the new one (FIFO). -/
theorem pool_length_bounded_fifo :
    (∀ evs : List PoolEvent, (runPool evs).length ≤ MAX_POINTS) ∧
    (∀ (ps : List TrailPoint) (x y s : ℚ), ps.length = MAX_POINTS →
      addPoint ps x y s = ps.tail ++ [mkPoint x y s]) := by
  constructor
  · intro evs
    exact foldl_poolStep_length_le evs [] (by simp)
  · intro ps x y s hlen
    unfold addPoint
    have hpos : ps ≠ [] := by
      intro hnil
      rw [hnil] at hlen
      simp [MAX_POINTS] at hlen
    rw [if_pos (by simp [hlen, MAX_POINTS])]
    cases ps with
    | nil => exact absurd rfl hpos
    | cons p rest => simp

/-- Witness for C3: a pool holding exactly 48 points evicts its oldest
point on the next add. -/
theorem pool_length_bounded_fifo_witness :
    addPoint (List.replicate 48 (mkPoint 0 0 0)) 1 2 3 =
      (List.replicate 48 (mkPoint 0 0 0)).tail ++ [mkPoint 1 2 3] :=
  pool_length_bounded_fifo.2 (List.replicate 48 (mkPoint 0 0 0)) 1 2 3 (by simp [MAX_POINTS])

/-- C4: one advance step subtracts `fadeSpeed / 1000` from the life of
every point, removes exactly the points whose resulting life is ≤ 0,
and returns the survivors, updated, in their original relative order —
it equals a map of the decay over the pool followed by a filter
keeping positive life. -/
theorem advance_eq_map_filter (f : ℚ) (ps : List TrailPoint) :
    advance f ps =
      (ps.map fun p => { p with life := p.life - f / 1000 }).filter
        fun p => decide (0 < p.life) := by
  induction ps with
  | nil => rfl
  | cons p rest ih =>
      simp only [advance, List.map_cons, List.filter_cons]
      by_cases h : p.life - f / 1000 ≤ 0
      · rw [if_pos h, ih]
        simp [not_lt.mpr h]
      · rw [if_neg h]
        simp [lt_of_not_le h, ih]

/-- Lemma: `advance` on a singleton pool: the point either dies or survives
with its life decremented. -/
lemma advance_singleton (f : ℚ) (p : TrailPoint) :
    advance f [p] =
      if p.life - f / 1000 ≤ 0 then []
      else [{ p with life := p.life - f / 1000 }] := by
  simp only [advance]

/-- At fade speed 55, the single point added at tick 0 carries life
`1 - k * (55/1000)` after `k ≤ 18` advance steps. -/
lemma fade55_life_after (k : Nat) (hk : k ≤ 18) :
    (advance 55)^[k] [mkPoint 0 0 0] =
      [{ mkPoint 0 0 0 with life := 1 - k * (55 / 1000) }] := by
  induction k with
  | zero => simp [mkPoint]
  | succ n ih =>
      have hn : n ≤ 18 := by omega
      rw [Function.iterate_succ_apply', ih hn, advance_singleton]
      have hcast : (n : ℚ) ≤ 17 := by
        exact_mod_cast (show n ≤ 17 by omega)
      have hpos : ¬ (({ mkPoint 0 0 0 with life := 1 - n * (55 / 1000) }).life
          - 55 / 1000 ≤ 0) := by
        simp only [mkPoint]
        intro hle
        linarith
      rw [if_neg hpos]
      simp only [mkPoint, List.cons.injEq, and_true]
      congr 1
      push_cast
      ring

/-- C5: with the fade speed fixed at 55, a freshly added point (life
1) survives every one of the first 18 advance steps and is removed by
the 19th — exactly ⌈1000/55⌉ = 19 steps. -/
theorem fade55_removes_at_step_19 :
    (∀ k : Nat, k ≤ 18 →
      ((advance 55)^[k] (runPool [PoolEvent.move true 0 0 0])).length = 1) ∧
    (advance 55)^[19] (runPool [PoolEvent.move true 0 0 0]) = [] := by
  have hpool : runPool [PoolEvent.move true 0 0 0] = [mkPoint 0 0 0] := rfl
  constructor
  · intro k hk
    rw [hpool, fade55_life_after k hk]
    rfl
  · rw [hpool, show (19 : Nat) = 18 + 1 from rfl, Function.iterate_succ_apply',
        fade55_life_after 18 (by omega), advance_singleton]
    rw [if_pos]
    simp only [mkPoint]
    norm_num

/-- Witness for C5: the pool still holds its point after 18 steps. -/
theorem fade55_removes_at_step_19_witness :
    ((advance 55)^[18] (runPool [PoolEvent.move true 0 0 0])).length = 1 :=
  fade55_removes_at_step_19.1 18 (by decide)

/-- C1 (amended): in every reachable controller state, the capture
stream handle is non-null iff the session state is `recording` or
`processing`.  The source keeps the stream alive through `processing`
(it is released only inside `recorder.onstop`, which also moves the
state back to `idle`), and it has no `requesting` state at all. -/
theorem stream_iff_recording_or_processing (m : RecCtrl)
    (h : RecReachable m) :
    m.stream = true ↔ (m.state = .recording ∨ m.state = .processing) := by
  obtain ⟨evs, rfl⟩ := h
  exact runRec_inv
    (fun m => m.stream = true ↔ (m.state = .recording ∨ m.state = .processing))
    (by simp [rcInit]) recStep_stream_inv evs

/-- Witness for C1 (amended): a freshly granted recording session has
a live stream and is in the `recording` state. -/
theorem stream_iff_recording_or_processing_witness :
    (runRec [RecEvent.startCall true, RecEvent.startGrant]).stream = true ↔
      ((runRec [RecEvent.startCall true, RecEvent.startGrant]).state = .recording ∨
       (runRec [RecEvent.startCall true, RecEvent.startGrant]).state = .processing) :=
  stream_iff_recording_or_processing _ ⟨[RecEvent.startCall true, RecEvent.startGrant], rfl⟩

/-- Counterexample to C1 as stated: after start (granted) followed by
stop, the controller sits in `processing` while the capture stream
handle is still non-null — the claim requires it to be null there. -/
theorem stream_null_in_processing_cex :
    (runRec [RecEvent.startCall true, RecEvent.startGrant, RecEvent.stopCall]).state
        = RecState.processing ∧
    (runRec [RecEvent.startCall true, RecEvent.startGrant, RecEvent.stopCall]).stream
        = true := by
  exact ⟨rfl, rfl⟩

/-- C2 (amended): `startRecording` is a no-op (the whole controller
state unchanged) when the state is `recording` — that is the only
guard in the source — and `stopRecording` is a no-op in every state
other than `recording`. -/
theorem start_stop_noop_guards :
    (∀ (m : RecCtrl) (cap : Bool), m.state = .recording →
      recStep m (.startCall cap) = m) ∧
    (∀ m : RecCtrl, m.state ≠ .recording → recStep m .stopCall = m) := by
  constructor
  · intro m cap h
    simp [recStep, h]
  · intro m h
    simp [recStep, h]

/-- Witness for C2 (amended): start is ignored while recording, and
stop is ignored in the initial idle state. -/
theorem start_stop_noop_guards_witness :
    recStep (runRec [RecEvent.startCall true, RecEvent.startGrant])
        (.startCall false) = runRec [RecEvent.startCall true, RecEvent.startGrant] ∧
    recStep rcInit .stopCall = rcInit :=
  ⟨start_stop_noop_guards.1 _ false rfl, start_stop_noop_guards.2 rcInit (by decide)⟩

/-- Counterexample to C2 as stated: in the `processing` state a
`startRecording` call is not a no-op — with the capture capability
absent it overwrites the error message (and with it present it clears
the artifact and begins a new acquisition). -/
theorem start_not_noop_in_processing_cex :
    (runRec [RecEvent.startCall true, RecEvent.startGrant, RecEvent.stopCall]).state
        = RecState.processing ∧
    recStep (runRec [RecEvent.startCall true, RecEvent.startGrant, RecEvent.stopCall])
        (.startCall false) ≠
      runRec [RecEvent.startCall true, RecEvent.startGrant, RecEvent.stopCall] ∧
    (runRec [RecEvent.startCall true, RecEvent.startGrant, RecEvent.stopCall,
        RecEvent.startCall true, RecEvent.startGrant]).state = RecState.recording := by
  refine ⟨rfl, ?_, rfl⟩
  decide

/-- C10: whenever `startRecording` runs outside the `recording` state
with the capture capability available, it clears the previous
downloadable artifact handle and the previous error message before the
asynchronous acquisition begins (which the pending-acquisition count
records). -/
theorem start_clears_previous_artifact (m : RecCtrl) (cap : Bool)
    (h1 : m.state ≠ .recording) (h2 : cap = true) :
    (recStep m (.startCall cap)).url = none ∧
    (recStep m (.startCall cap)).error = "" ∧
    (recStep m (.startCall cap)).pendingStarts = m.pendingStarts + 1 := by
  subst h2
  simp [recStep, h1]

/-- Witness for C10: after a full start→stop→finalize cycle the idle
controller holds an artifact; the next start call discards it. -/
theorem start_clears_previous_artifact_witness :
    (recStep (runRec [RecEvent.startCall true, RecEvent.startGrant,
        RecEvent.stopCall, RecEvent.finalize]) (.startCall true)).url = none ∧
    (recStep (runRec [RecEvent.startCall true, RecEvent.startGrant,
        RecEvent.stopCall, RecEvent.finalize]) (.startCall true)).error = "" ∧
    (recStep (runRec [RecEvent.startCall true, RecEvent.startGrant,
        RecEvent.stopCall, RecEvent.finalize]) (.startCall true)).pendingStarts =
      (runRec [RecEvent.startCall true, RecEvent.startGrant,
        RecEvent.stopCall, RecEvent.finalize]).pendingStarts + 1 :=
  start_clears_previous_artifact _ true (by decide) rfl

/-- C6: applying a preset overwrites style, color, size and fade rate
in one step (the model applies all four fields in a single function
application, matching the single synchronous handler of the source between
animation frames) and records the id of the preset; every manual style,
color or size mutation — style button, color swatch, size slider, and
the two bracket shortcuts — clears the active preset id (also right
after a preset was applied); toggling the active flag with `t` leaves
the active preset id untouched. -/
theorem preset_id_tracking :
    (∀ (s : Settings) (preset : Preset),
      applyPreset preset s =
        { isActive := s.isActive, trailStyle := preset.config.style,
          trailColor := preset.config.color, trailSize := preset.config.size,
          fadeSpeed := preset.config.fade, activePresetId := some preset.id }) ∧
    (∀ (s : Settings) (id : String), (clickStyle id s).activePresetId = none) ∧
    (∀ (s : Settings) (c : String), (clickColor c s).activePresetId = none) ∧
    (∀ (s : Settings) (n : Int), (setSizeSlider n s).activePresetId = none) ∧
    (∀ s : Settings, (pressLBracket s).activePresetId = none) ∧
    (∀ s : Settings, (pressRBracket s).activePresetId = none) ∧
    (∀ (s : Settings) (preset : Preset) (id : String),
      (clickStyle id (applyPreset preset s)).activePresetId = none) ∧
    (∀ s : Settings, (pressT s).activePresetId = s.activePresetId) ∧
    (∀ (s : Settings) (preset : Preset),
      (pressT (applyPreset preset s)).activePresetId = some preset.id) := by
  refine ⟨fun s preset => rfl, fun s id => rfl, fun s c => rfl, fun s n => rfl,
    fun s => rfl, fun s => rfl, fun s preset id => rfl, fun s => rfl,
    fun s preset => rfl⟩

/-- C7: saving the configuration `{isActive := false, trailStyle :=
glow, trailColor := #3B82F6, trailSize := 40, fadeSpeed := 30,
activePresetId := none}` and loading the stored payload in a fresh
instance reproduces exactly those values; and for every stored
payload, a `trailSize` of the wrong type (a string, as in the example of the
spec, or a boolean or null) falls back to the default size 22 while
every other field loads exactly as it would have. -/
theorem settings_roundtrip_and_degrade :
    loadSettings (saveSettings
      { isActive := false, trailStyle := "glow", trailColor := "#3B82F6",
        trailSize := 40, fadeSpeed := 30, activePresetId := none }) =
      { isActive := false, trailStyle := "glow", trailColor := "#3B82F6",
        trailSize := 40, fadeSpeed := 30, activePresetId := none } ∧
    (∀ (p : StoredSettings) (w : String),
      loadSettings { p with trailSize := some (.jstr w) } =
        { loadSettings p with trailSize := defaultSettings.trailSize }) ∧
    (∀ (p : StoredSettings) (b : Bool),
      loadSettings { p with trailSize := some (.jbool b) } =
        { loadSettings p with trailSize := defaultSettings.trailSize }) ∧
    (∀ p : StoredSettings,
      loadSettings { p with trailSize := some .jnull } =
        { loadSettings p with trailSize := defaultSettings.trailSize }) := by
  refine ⟨rfl, fun p w => rfl, fun p b => rfl, fun p => rfl⟩

/-- C8 (amended): the published control-surface object exposes exactly
the four entry points `toggle()`, `applyPreset(id)`,
`startRecording()` and `stopRecording()` (the source names the toggle
entry `toggle`, not `toggleActive`), and the effect cleanup removes
the globally installed object only when it is still the very object
this instance installed — an object installed by a newer instance
survives teardown by an older instance. -/
theorem control_surface_exact_and_guarded_teardown :
    (controlSurfaceKeys.length = 4 ∧ controlSurfaceKeys.Nodup ∧
      ∀ k : String, k ∈ controlSurfaceKeys ↔
        (k = "toggle" ∨ k = "applyPreset" ∨
         k = "startRecording" ∨ k = "stopRecording")) ∧
    (∀ current c : ControlSurface, current ≠ c →
      cleanupControls (some current) c = some current) ∧
    (∀ c : ControlSurface, cleanupControls (some c) c = none) ∧
    (∀ c : ControlSurface, cleanupControls none c = none) := by
  refine ⟨⟨rfl, by decide, fun k => ?_⟩, fun current c h => ?_, fun c => ?_,
    fun c => rfl⟩
  · simp [controlSurfaceKeys]
  · simp [cleanupControls, h]
  · simp [cleanupControls]

/-- Witness for C8 (amended): teardown by instance 0 does not remove
the surface installed by instance 1, while teardown by instance 1
does. -/
theorem control_surface_guarded_teardown_witness :
    cleanupControls (installControls none ⟨1⟩) ⟨0⟩ = some ⟨1⟩ ∧
    cleanupControls (installControls none ⟨1⟩) ⟨1⟩ = none :=
  ⟨control_surface_exact_and_guarded_teardown.2.1 ⟨1⟩ ⟨0⟩ (by decide),
   control_surface_exact_and_guarded_teardown.2.2.1 ⟨1⟩⟩

/-- Counterexample to C8 as stated: no published entry point is named
`toggleActive` — the four keys are `toggle`, `applyPreset`,
`startRecording`, `stopRecording`. -/
theorem control_surface_toggleActive_cex :
    "toggleActive" ∉ controlSurfaceKeys ∧ "toggle" ∈ controlSurfaceKeys ∧
      controlSurfaceKeys.length = 4 := by
  refine ⟨by decide, by decide, rfl⟩

/-- C9: for every non-negatively alive point and every size, the star
style emits one closed polygon of exactly 10 vertices: the five outer
vertices at distance `radius = size * life` and the five inner
vertices at distance `0.45 * radius`, interleaved outer/inner, the
first outer vertex at angle `-π/2` (coefficient `-1/2`) and each
successive pair advanced by `2π/5`. -/
theorem star_ten_vertices (life size : ℚ) (h : 0 ≤ life) :
    starPath life size =
      { vertices :=
          [ ⟨-(1 / 2), size * life⟩, ⟨-(3 / 10), size * life * (45 / 100)⟩,
            ⟨-(1 / 10), size * life⟩, ⟨1 / 10, size * life * (45 / 100)⟩,
            ⟨3 / 10, size * life⟩, ⟨1 / 2, size * life * (45 / 100)⟩,
            ⟨7 / 10, size * life⟩, ⟨9 / 10, size * life * (45 / 100)⟩,
            ⟨11 / 10, size * life⟩, ⟨13 / 10, size * life * (45 / 100)⟩ ],
        closed := true } ∧
    (starPath life size).vertices.length = 10 := by
  have hmax : max life 0 = life := max_eq_left h
  constructor
  · simp only [starPath, hmax]
    norm_num [List.range_succ]
  · simp only [starPath, hmax]
    rfl

/-- Witness for C9: the star polygon of a fresh point (life 1) at size
22 — outer vertices at distance 22, inner ones at 9.9. -/
theorem star_ten_vertices_witness :
    starPath 1 22 =
      { vertices :=
          [ ⟨-(1 / 2), 22 * 1⟩, ⟨-(3 / 10), 22 * 1 * (45 / 100)⟩,
            ⟨-(1 / 10), 22 * 1⟩, ⟨1 / 10, 22 * 1 * (45 / 100)⟩,
            ⟨3 / 10, 22 * 1⟩, ⟨1 / 2, 22 * 1 * (45 / 100)⟩,
            ⟨7 / 10, 22 * 1⟩, ⟨9 / 10, 22 * 1 * (45 / 100)⟩,
            ⟨11 / 10, 22 * 1⟩, ⟨13 / 10, 22 * 1 * (45 / 100)⟩ ],
        closed := true } :=
  (star_ten_vertices 1 22 (by norm_num)).1

end CursorTrail
